import Mathlib

/-!
Verification of the core of `bot.py` (M3U8-BOT): a single-process Telegram bot
that parses chat messages into download jobs, queues them, and downloads each
playlist with a fixed retry budget.

Shallow embedding conventions:
* Python strings are modelled as `List Char`; `str.strip()` is `pyStrip`,
  `re.sub(r'[\\/*?:"<>|]', "", s)` is a character filter, `str.split("|", 1)`
  is `splitOnceBar`, `str.splitlines()` is `splitLines` (LF-separated; a CR
  of a CRLF pair is absorbed by the per-line `strip` the code applies).
* The network, the filesystem and the external tools (aria2c, `cat`, ffmpeg,
  `shutil.copy`) are oracles: each call's outcome is a field of a `NetEnv`
  record, and the scratch filesystem is a `Scratch` record of existence flags
  plus invocation counters, threaded explicitly through `download_and_merge`;
  the removals performed by the cleanup block are modelled as succeeding.
* The retry loop of `main_loop` is driven by an oracle giving each attempt's
  `download_and_merge` outcome, and records notifications, download
  invocations and `time.sleep(5)` calls as an event trace.
-/

namespace M3U8Bot

/-- The whitespace set of Python's default `str.strip()`. -/
def pyWhitespace (c : Char) : Bool :=
  c = ' ' || c = '\t' || c = '\n' || c = '\r' || c = '\x0b' || c = '\x0c'

/-- Python `s.strip()`: drop whitespace from both ends. -/
def pyStrip (s : List Char) : List Char :=
  ((s.dropWhile pyWhitespace).reverse.dropWhile pyWhitespace).reverse

/-- `startsWithL p s` is Python `s.startswith(p)` (pattern `p` first). -/
def startsWithL : List Char → List Char → Bool
  | [], _ => true
  | _ :: _, [] => false
  | p :: ps, c :: cs => (p = c : Bool) && startsWithL ps cs

/-- `endsWithL p s` is Python `s.endswith(p)`. -/
def endsWithL (p s : List Char) : Bool :=
  startsWithL p.reverse s.reverse

/-- The character class of `re.sub(r'[\\/*?:"<>|]', "", name)` in
`clean_filename` (bot.py line 71). -/
def illegalChar (c : Char) : Bool :=
  c = '\\' || c = '/' || c = '*' || c = '?' || c = ':' || c = '\"' ||
  c = '<' || c = '>' || c = '|'

/-- `clean_filename` (bot.py lines 70-71): remove the illegal characters,
then `strip()` surrounding whitespace. -/
def clean_filename (name : List Char) : List Char :=
  pyStrip (name.filter (fun c => !illegalChar c))

/-- The sanitizer as the claim words it: remove every occurrence of every
character in the illegal set from the label and do nothing else. -/
def sanitizeSpecC7 (name : List Char) : List Char :=
  name.filter (fun c => !illegalChar c)

/-- Python `text.split("|", 1)` under the guard `"|" in text`: the part
before the first `|` and the part after it. -/
def splitOnceBar : List Char → List Char × List Char
  | [] => ([], [])
  | c :: cs =>
    if c = '|' then ([], cs)
    else
      let r := splitOnceBar cs
      (c :: r.1, r.2)

def httpPat : List Char := "http".data
def m3u8Pat : List Char := ".m3u8".data
def mp4Ext : List Char := ".mp4".data
def hashPat : List Char := "#".data

/-- A parsed job: the link and the optional custom output file name
(Python's `(link, None)` becomes `(link, none)`; the rejection value
`(None, None)` becomes `none` for the whole result). -/
abbrev Job := List Char × Option (List Char)

/-- `parse_message_text` (bot.py lines 126-146). -/
def parse_message_text (text : List Char) : Option Job :=
  if text.contains '|' then
    let parts := splitOnceBar text
    let name := clean_filename parts.1
    let link := pyStrip parts.2
    if startsWithL httpPat link && endsWithL m3u8Pat link then
      some (link, some (name ++ mp4Ext))
    else
      none
  else
    let link := pyStrip text
    if startsWithL httpPat link && endsWithL m3u8Pat link then
      some (link, none)
    else
      none

/-- The candidate link the acceptance test of `parse_message_text` is applied
to: the (trimmed) part after the first `|` when a separator is present,
otherwise the whole trimmed text. -/
def candidateLink (text : List Char) : List Char :=
  if text.contains '|' then pyStrip (splitOnceBar text).2 else pyStrip text

/-! ### Message-feed polling and the cursor (bot.py lines 240-268) -/

/-- A polled message record: the `update_id` and the optional message text
(`none` when the update carries no `message`/`text`). -/
abbrev Msg := Nat × Option (List Char)

/-- The new-message guard of the poll loop (bot.py line 260):
`last_update_id is None or update_id > last_update_id`. -/
def admitsId (cursor : Option Nat) (id : Nat) : Bool :=
  match cursor with
  | none => true
  | some v => v < id

/-- The job (if any) a record's text contributes (bot.py lines 262-266). -/
def jobsOfText : Option (List Char) → List Job
  | none => []
  | some t =>
    match parse_message_text t with
    | some j => [j]
    | none => []

/-- Processing of one polled record (bot.py lines 258-268): when the
identifier passes the guard, the cursor advances to it and the parsed job,
if any, is appended to the queue. -/
def stepMsg (st : Option Nat × List Job) (m : Msg) : Option Nat × List Job :=
  if admitsId st.1 m.1 then (some m.1, st.2 ++ jobsOfText m.2) else st

/-- Processing of one polled batch: fold `stepMsg` over the records,
starting from the pre-batch cursor with no jobs yet enqueued from it. -/
def processBatch (cursor : Option Nat) (batch : List Msg) :
    Option Nat × List Job :=
  batch.foldl stepMsg (cursor, [])

/-- The net cursor effect of observing one identifier: the first identifier
replaces `none`; afterwards the cursor keeps the larger of the two. -/
def cursorMax (cursor : Option Nat) (id : Nat) : Option Nat :=
  match cursor with
  | none => some id
  | some v => some (max v id)

/-- Startup cursor initialization (bot.py lines 240-248): the `update_id` of
the last record of the startup poll; `none` when the poll raises or returns
an empty batch. The argument is `none` when the startup poll fails. -/
def startupCursor (poll : Option (List Msg)) : Option Nat :=
  match poll with
  | none => none
  | some b =>
    match b.getLast? with
    | some m => some m.1
    | none => none

/-! ### Manifest parsing inside `download_and_merge` (bot.py lines 182-191) -/

/-- `m3u8_url.rsplit("/", 1)[0]`: everything before the last `/`, or the
whole string when there is no `/`. -/
def rsplitSlashHead (s : List Char) : List Char :=
  match s.reverse.dropWhile (fun c => !(c = '/' : Bool)) with
  | [] => s
  | _ :: rest => rest.reverse

/-- `base_url = m3u8_url.rsplit("/", 1)[0] + "/"` (bot.py line 182). -/
def base_url (m3u8Url : List Char) : List Char :=
  rsplitSlashHead m3u8Url ++ ['/']

def splitLinesAux : List Char → List Char → List (List Char)
  | [], acc => [acc.reverse]
  | c :: cs, acc =>
    if c = '\n' then acc.reverse :: splitLinesAux cs []
    else splitLinesAux cs (c :: acc)

/-- `m3u8_content.splitlines()`, modelled as splitting at `'\n'`. A CR left
by a CRLF pair is removed by the `strip()` applied to every line, and the
extra empty line this produces for a trailing newline is skipped by the
blank-line test, so the difference from Python is invisible to the loop. -/
def splitLines (s : List Char) : List (List Char) :=
  splitLinesAux s []

/-- The chunk-collection loop of `download_and_merge` (bot.py lines 183-191):
strip each line; skip empty lines and lines starting with `#`; keep lines
starting with `http`; prepend `base_url` to every other line. -/
def collectChunks (base : List Char) : List (List Char) → List (List Char)
  | [] => []
  | l :: ls =>
    let line := pyStrip l
    if line.isEmpty || startsWithL hashPat line then collectChunks base ls
    else if startsWithL httpPat line then line :: collectChunks base ls
    else (base ++ line) :: collectChunks base ls

/-- The full segment-URL list computed by `download_and_merge` for a
manifest fetched from `m3u8Url` with body `content`. -/
def chunk_urls (m3u8Url content : List Char) : List (List Char) :=
  collectChunks (base_url m3u8Url) (splitLines content)

/-- The segment list as the spec words it (§4.4 step 2): the manifest's
lines in order, blank lines and `#` lines skipped, remaining lines starting
with `http` used verbatim, every other line resolved against the manifest
URL with its last path segment removed. -/
def segmentListSpec (m3u8Url content : List Char) : List (List Char) :=
  (((splitLines content).map pyStrip).filter
      (fun l => !(l.isEmpty || startsWithL hashPat l))).map
    (fun l => if startsWithL httpPat l then l else base_url m3u8Url ++ l)

/-! ### The scratch filesystem and `download_and_merge` (bot.py 169-231) -/

/-- Existence flags for the scratch artifacts of one attempt, the final
destination file, and invocation counters for the external tools. -/
structure Scratch where
  chunksDir : Bool
  tempTs : Bool
  playlistFile : Bool
  chunksTxt : Bool
  outputMp4 : Bool
  destSaved : Bool
  ariaCalls : Nat
  ffmpegCalls : Nat
  deriving DecidableEq, Repr

/-- Outcomes of the external calls an attempt makes: the manifest fetch
(`none` = network error or non-2xx status), aria2c, `cat`, ffmpeg, and the
final copy. -/
structure NetEnv where
  fetchResult : Option (List Char)
  ariaOk : Bool
  catOk : Bool
  ffmpegOk : Bool
  copyOk : Bool
  deriving DecidableEq, Repr

/-- The `finally` block of `download_and_merge` (bot.py lines 222-231):
remove the `chunks` directory, `temp.ts`, `playlist.m3u8`, `chunks.txt` and
`output.mp4`; the removals are modelled as succeeding. -/
def cleanupScratch (s : Scratch) : Scratch :=
  { s with chunksDir := false, tempTs := false, playlistFile := false,
           chunksTxt := false, outputMp4 := false }

/-- `download_and_merge` (bot.py lines 169-231) as a state transformer:
returns the Python `True`/`False` result and the filesystem state after the
`finally` block. Any step failure jumps to the cleanup, mirroring the
`except`/`finally` structure. -/
def download_and_merge (env : NetEnv) (m3u8Url : List Char) (s : Scratch) :
    Bool × Scratch :=
  match env.fetchResult with
  | none => (false, cleanupScratch s)
  | some content =>
    let s := { s with playlistFile := true }
    let urls := chunk_urls m3u8Url content
    if urls.isEmpty then (false, cleanupScratch s)
    else
      let s := { s with chunksTxt := true }
      let s := { s with ariaCalls := s.ariaCalls + 1, chunksDir := true }
      if !env.ariaOk then (false, cleanupScratch s)
      else
        let s := { s with tempTs := true }
        if !env.catOk then (false, cleanupScratch s)
        else
          let s := { s with ffmpegCalls := s.ffmpegCalls + 1 }
          if !env.ffmpegOk then (false, cleanupScratch s)
          else
            let s := { s with outputMp4 := true }
            if !env.copyOk then (false, cleanupScratch s)
            else (true, cleanupScratch { s with destSaved := true })

/-! ### The retry loop of `main_loop` (bot.py lines 284-298) -/

/-- `MAX_RETRIES` (bot.py line 34). -/
def MAX_RETRIES : Nat := 3

/-- One observable event of the per-job retry phase. -/
inductive Event where
  | attemptMsg (n : Nat)
  | downloadCall (n : Nat)
  | successMsg
  | failMsg (n : Nat)
  | sleepDelay (secs : Nat)
  | allFailedMsg
  deriving DecidableEq, Repr

/-- The `for attempt in range(1, MAX_RETRIES + 1)` loop (bot.py lines
285-295), driven by an oracle giving each attempt's `download_and_merge`
outcome. `fuel` is the number of attempts still allowed; the result is the
event trace and the final `success` flag. -/
def retryLoop (oracle : Nat → Bool) (attempt : Nat) : Nat → List Event × Bool
  | 0 => ([], false)
  | fuel + 1 =>
    let pre := [Event.attemptMsg attempt, Event.downloadCall attempt]
    if oracle attempt then
      (pre ++ [Event.successMsg], true)
    else
      let rest := retryLoop oracle (attempt + 1) fuel
      (pre ++ [Event.failMsg attempt, Event.sleepDelay 5] ++ rest.1, rest.2)

/-- The whole per-job retry phase (bot.py lines 284-298): run the loop from
attempt 1 with `MAX_RETRIES` attempts, then emit the permanent-failure
notification when no attempt succeeded. -/
def processJob (oracle : Nat → Bool) : List Event :=
  let r := retryLoop oracle 1 MAX_RETRIES
  r.1 ++ (if r.2 then [] else [Event.allFailedMsg])

def downloadCount (es : List Event) : Nat :=
  es.countP fun e => match e with | Event.downloadCall _ => true | _ => false

def successMsgCount (es : List Event) : Nat :=
  es.countP fun e => match e with | Event.successMsg => true | _ => false

def failMsgCount (es : List Event) : Nat :=
  es.countP fun e => match e with | Event.failMsg _ => true | _ => false

def sleepCount (es : List Event) : Nat :=
  es.countP fun e => match e with | Event.sleepDelay _ => true | _ => false

end M3U8Bot

namespace M3U8Bot

/-- C2: `parse_message_text` produces a job iff the candidate link starts
with `http` and ends with `.m3u8`; every other input yields `none` (the
Python `(None, None)`), so no job is produced and no error is surfaced to
the sender. -/
theorem C2_parse_accepts_iff_http_m3u8 (text : List Char) :
    (parse_message_text text).isSome =
      (startsWithL httpPat (candidateLink text) &&
       endsWithL m3u8Pat (candidateLink text)) := by
  unfold parse_message_text candidateLink
  by_cases h : text.contains '|' = true
  · simp only [h, if_true]
    by_cases h2 : (startsWithL httpPat (pyStrip (splitOnceBar text).2) &&
        endsWithL m3u8Pat (pyStrip (splitOnceBar text).2)) = true
    · simp [h2]
    · simp [h2]
  · simp only [Bool.not_eq_true] at h
    simp only [h, Bool.false_eq_true, if_false]
    by_cases h2 : (startsWithL httpPat (pyStrip text) &&
        endsWithL m3u8Pat (pyStrip text)) = true
    · simp [h2]
    · simp [h2]

/-- The cursor component of the batch fold only depends on the identifiers:
it is the `cursorMax` fold over them. -/
theorem foldl_stepMsg_fst (b : List Msg) :
    ∀ (c : Option Nat) (js : List Job),
      (b.foldl stepMsg (c, js)).1 = b.foldl (fun a m => cursorMax a m.1) c := by
  induction b with
  | nil => intro c js; rfl
  | cons m rest ih =>
    intro c js
    simp only [List.foldl_cons]
    cases c with
    | none =>
      simp only [stepMsg, admitsId, if_true]
      rw [ih]
      rfl
    | some v =>
      by_cases h : v < m.1
      · rw [show stepMsg (some v, js) m = (some m.1, js ++ jobsOfText m.2) by
          simp [stepMsg, admitsId, h]]
        rw [ih]
        simp [cursorMax, Nat.max_eq_right (Nat.le_of_lt h)]
      · rw [show stepMsg (some v, js) m = (some v, js) by
          simp [stepMsg, admitsId, h]]
        rw [ih]
        simp [cursorMax, Nat.max_eq_left (Nat.le_of_not_lt h)]

/-- Records whose identifier is at most `v` are inert once the cursor is at
least `v`: filtering them out of the batch changes nothing. -/
theorem foldl_stepMsg_stale_filter (v : Nat) (b : List Msg) :
    ∀ (w : Nat) (js : List Job), v ≤ w →
      b.foldl stepMsg (some w, js) =
        (b.filter (fun m => decide (v < m.1))).foldl stepMsg (some w, js) := by
  induction b with
  | nil => intros; rfl
  | cons m rest ih =>
    intro w js hvw
    by_cases hm : v < m.1
    · rw [List.filter_cons_of_pos (by simpa using hm)]
      rw [List.foldl_cons, List.foldl_cons]
      have hnew : ∃ w2 js2, stepMsg (some w, js) m = (some w2, js2) ∧ v ≤ w2 := by
        by_cases hw : w < m.1
        · exact ⟨m.1, js ++ jobsOfText m.2,
            by simp [stepMsg, admitsId, hw], Nat.le_of_lt hm⟩
        · exact ⟨w, js, by simp [stepMsg, admitsId, hw], hvw⟩
      obtain ⟨w2, js2, heq, hle⟩ := hnew
      rw [heq, ih w2 js2 hle]
    · rw [List.filter_cons_of_neg (by simpa using hm)]
      have hw : ¬ (w < m.1) := by omega
      rw [List.foldl_cons,
        show stepMsg (some w, js) m = (some w, js) by
          simp [stepMsg, admitsId, hw]]
      exact ih w js hvw

/-- C1: the downloader is invoked at most `MAX_RETRIES = 3` times per job,
invocations stop at the first successful attempt, and a job failing on
attempts 1 and 2 and succeeding on attempt 3 produces exactly the trace
with 3 attempt notifications, 3 download invocations and one final success
notification. -/
theorem C1_retry_budget (oracle : Nat → Bool) :
    downloadCount (processJob oracle) ≤ MAX_RETRIES
    ∧ (∀ k, 1 ≤ k → k ≤ MAX_RETRIES → oracle k = true →
        (∀ j, 1 ≤ j → j < k → oracle j = false) →
        downloadCount (processJob oracle) = k)
    ∧ (oracle 1 = false → oracle 2 = false → oracle 3 = true →
        processJob oracle =
          [Event.attemptMsg 1, Event.downloadCall 1, Event.failMsg 1,
           Event.sleepDelay 5,
           Event.attemptMsg 2, Event.downloadCall 2, Event.failMsg 2,
           Event.sleepDelay 5,
           Event.attemptMsg 3, Event.downloadCall 3, Event.successMsg]
        ∧ downloadCount (processJob oracle) = 3
        ∧ successMsgCount (processJob oracle) = 1) := by
  by_cases h1 : oracle 1 = true
  · refine ⟨?_, ?_, ?_⟩
    · simp [processJob, retryLoop, MAX_RETRIES, h1, downloadCount]
    · intro k hk1 hk3 hk hprev
      have hk3' : k ≤ 3 := hk3
      interval_cases k
      · simp [processJob, retryLoop, MAX_RETRIES, h1, downloadCount]
      · have := hprev 1 (by omega) (by omega); simp [this] at h1
      · have := hprev 1 (by omega) (by omega); simp [this] at h1
    · intro ha _ _; simp [ha] at h1
  · rw [Bool.not_eq_true] at h1
    by_cases h2 : oracle 2 = true
    · refine ⟨?_, ?_, ?_⟩
      · simp [processJob, retryLoop, MAX_RETRIES, h1, h2, downloadCount]
      · intro k hk1 hk3 hk hprev
        have hk3' : k ≤ 3 := hk3
        interval_cases k
        · simp [hk] at h1
        · simp [processJob, retryLoop, MAX_RETRIES, h1, h2, downloadCount]
        · have := hprev 2 (by omega) (by omega); simp [this] at h2
      · intro _ hb _; simp [hb] at h2
    · rw [Bool.not_eq_true] at h2
      by_cases h3 : oracle 3 = true
      · refine ⟨?_, ?_, ?_⟩
        · simp [processJob, retryLoop, MAX_RETRIES, h1, h2, h3, downloadCount]
        · intro k hk1 hk3 hk hprev
          have hk3' : k ≤ 3 := hk3
          interval_cases k
          · simp [hk] at h1
          · simp [hk] at h2
          · simp [processJob, retryLoop, MAX_RETRIES, h1, h2, h3,
              downloadCount]
        · intro _ _ _
          refine ⟨?_, ?_, ?_⟩
          · simp [processJob, retryLoop, MAX_RETRIES, h1, h2, h3]
          · simp [processJob, retryLoop, MAX_RETRIES, h1, h2, h3,
              downloadCount]
          · simp [processJob, retryLoop, MAX_RETRIES, h1, h2, h3,
              successMsgCount]
      · rw [Bool.not_eq_true] at h3
        refine ⟨?_, ?_, ?_⟩
        · simp [processJob, retryLoop, MAX_RETRIES, h1, h2, h3, downloadCount]
        · intro k hk1 hk3 hk hprev
          have hk3' : k ≤ 3 := hk3
          interval_cases k
          · simp [hk] at h1
          · simp [hk] at h2
          · simp [hk] at h3
        · intro _ _ hc; simp [hc] at h3

/-- Witness for C1 at the oracle that fails attempts 1 and 2 and succeeds
on attempt 3. -/
theorem C1_retry_budget_witness :
    downloadCount (processJob (fun k => k == 3)) = 3
    ∧ successMsgCount (processJob (fun k => k == 3)) = 1 :=
  ⟨((C1_retry_budget (fun k => k == 3)).2.2 rfl rfl rfl).2.1,
   ((C1_retry_budget (fun k => k == 3)).2.2 rfl rfl rfl).2.2⟩

/-- Counterexample to C8: when all 3 attempts fail, the claim allows a delay
only after attempts 1 and 2 (where attempts remain), i.e. exactly 2 sleeps,
but the code executes `time.sleep(5)` after every failed attempt, including
the final one, so the trace holds 3 sleep events. -/
theorem C8_counterexample :
    sleepCount (processJob (fun _ => false)) = 3
    ∧ ¬ (sleepCount (processJob (fun _ => false)) = 2) := by
  constructor
  · rfl
  · decide

/-- C8 as amended: the fixed 5-unit delay is observed after every failed
attempt — including the final one — and never after a successful attempt:
the number of sleep events always equals the number of failure
notifications. -/
theorem C8_amended_delay_after_every_failure (oracle : Nat → Bool) :
    sleepCount (processJob oracle) = failMsgCount (processJob oracle) := by
  by_cases h1 : oracle 1 = true
  · simp [processJob, retryLoop, MAX_RETRIES, h1, sleepCount, failMsgCount]
  · rw [Bool.not_eq_true] at h1
    by_cases h2 : oracle 2 = true
    · simp [processJob, retryLoop, MAX_RETRIES, h1, h2, sleepCount,
        failMsgCount]
    · rw [Bool.not_eq_true] at h2
      by_cases h3 : oracle 3 = true
      · simp [processJob, retryLoop, MAX_RETRIES, h1, h2, h3, sleepCount,
          failMsgCount]
      · rw [Bool.not_eq_true] at h3
        simp [processJob, retryLoop, MAX_RETRIES, h1, h2, h3, sleepCount,
          failMsgCount]

/-- Counterexample to C3: with pre-batch cursor 10 and a batch holding only
the stale record 5 (with a perfectly valid link), the cursor stays at 10 —
it does not equal the maximum identifier observed in the batch, 5, because
the code never moves the cursor backwards. -/
theorem C3_counterexample :
    (processBatch (some 10) [(5, some ("http://a.m3u8".data))]).1 = some 10
    ∧ ¬ ((processBatch (some 10)
          [(5, some ("http://a.m3u8".data))]).1 = some 5) := by
  exact ⟨rfl, by decide⟩

/-- C3 as amended: after a batch the cursor equals the maximum of the
pre-batch cursor and all identifiers in the batch (the `cursorMax` fold),
and records whose identifier is at most the pre-batch cursor contribute
nothing — filtering them out of the batch leaves both the cursor and the
produced jobs unchanged. -/
theorem C3_amended_cursor_max_and_stale_discard (c : Option Nat)
    (b : List Msg) :
    (processBatch c b).1 = b.foldl (fun a m => cursorMax a m.1) c
    ∧ ∀ v, c = some v →
        processBatch c b =
          processBatch c (b.filter (fun m => decide (v < m.1))) := by
  constructor
  · exact foldl_stepMsg_fst b c []
  · intro v hv
    subst hv
    exact foldl_stepMsg_stale_filter v b v [] (Nat.le_refl v)

/-- Witness for C3 as amended: pre-batch cursor 10, a stale record 5 and a
fresh record 12. -/
theorem C3_amended_witness :
    processBatch (some 10)
        [(5, some ("http://a.m3u8".data)), (12, some ("http://b.m3u8".data))] =
      processBatch (some 10)
        (([(5, some ("http://a.m3u8".data)),
           (12, some ("http://b.m3u8".data))] : List Msg).filter
          (fun m => decide (10 < m.1))) :=
  (C3_amended_cursor_max_and_stale_discard (some 10)
    [(5, some ("http://a.m3u8".data)), (12, some ("http://b.m3u8".data))]).2
    10 rfl

/-- Counterexample to C9: when the startup poll fails the cursor is left
unset (`None`), and a message that already existed before startup — here the
record with identifier 1 — does produce a job on the next poll, contradicting
the claim's "including when the startup poll itself fails". -/
theorem C9_counterexample :
    startupCursor none = none
    ∧ (processBatch (startupCursor none)
          [(1, some ("http://a.m3u8".data))]).2 =
        [(("http://a.m3u8".data : List Char), none)] := by
  exact ⟨rfl, rfl⟩

/-- C9 as amended: when the startup poll succeeds and returns a non-empty
batch, the cursor is initialized to the identifier of that batch's last
record (the newest, as the feed is ordered), and thereafter any record with
identifier at most that value never produces a job: filtering such records
out of a later batch changes nothing. When the startup poll fails the
cursor is unset and pre-existing messages are not protected against. -/
theorem C9_amended_startup_cursor (b0 : List Msg) (m0 : Msg) (b : List Msg)
    (h : b0.getLast? = some m0) :
    startupCursor (some b0) = some m0.1
    ∧ processBatch (startupCursor (some b0)) b =
        processBatch (startupCursor (some b0))
          (b.filter (fun m => decide (m0.1 < m.1))) := by
  have hc : startupCursor (some b0) = some m0.1 := by
    simp [startupCursor, h]
  refine ⟨hc, ?_⟩
  rw [hc]
  exact foldl_stepMsg_stale_filter m0.1 b m0.1 [] (Nat.le_refl _)

/-- Witness for C9 as amended: startup batch ending in identifier 7, later
batch holding only the stale record 5. -/
theorem C9_amended_witness :
    startupCursor (some [((3 : Nat), (none : Option (List Char))), (7, none)]) =
      some 7
    ∧ processBatch
        (startupCursor
          (some [((3 : Nat), (none : Option (List Char))), (7, none)]))
        [(5, some ("http://a.m3u8".data))] =
      processBatch
        (startupCursor
          (some [((3 : Nat), (none : Option (List Char))), (7, none)]))
        (([(5, some ("http://a.m3u8".data))] : List Msg).filter
          (fun m => decide ((7 : Nat) < m.1))) :=
  C9_amended_startup_cursor [(3, none), (7, none)] (7, none)
    [(5, some ("http://a.m3u8".data))] rfl

/-- The chunk-collection loop is the filter/map the spec describes. -/
theorem collectChunks_eq_filter_map (base : List Char) (ls : List (List Char)) :
    collectChunks base ls =
      ((ls.map pyStrip).filter
          (fun l => !(l.isEmpty || startsWithL hashPat l))).map
        (fun l => if startsWithL httpPat l then l else base ++ l) := by
  induction ls with
  | nil => rfl
  | cons l rest ih =>
    simp only [collectChunks, List.map_cons, List.filter_cons]
    by_cases h1 : ((pyStrip l).isEmpty || startsWithL hashPat (pyStrip l)) = true
    · simp [h1, ih]
    · by_cases h2 : startsWithL httpPat (pyStrip l) = true
      · simp [h1, h2, ih]
      · simp [h1, h2, ih]

/-- C4: the segment list computed by `download_and_merge` is exactly the
manifest's lines in order with blank lines and `#` lines skipped, the
remaining lines starting with `http` kept as they stand, and every other
line resolved against the manifest URL with its last path segment
removed. -/
theorem C4_segment_list_matches_spec (m3u8Url content : List Char) :
    chunk_urls m3u8Url content = segmentListSpec m3u8Url content := by
  unfold chunk_urls segmentListSpec
  exact collectChunks_eq_filter_map (base_url m3u8Url) (splitLines content)

/-- C5: whatever the outcome of every external call, after
`download_and_merge` returns none of the scratch artifacts — the `chunks`
directory, `temp.ts`, `playlist.m3u8` and `chunks.txt` — exist: the
`finally` cleanup runs on every exit path of the attempt. -/
theorem C5_scratch_gone_after_return (env : NetEnv) (url : List Char)
    (s : Scratch) :
    (download_and_merge env url s).2.chunksDir = false
    ∧ (download_and_merge env url s).2.tempTs = false
    ∧ (download_and_merge env url s).2.playlistFile = false
    ∧ (download_and_merge env url s).2.chunksTxt = false := by
  obtain ⟨fr, aOk, cOk, fOk, pOk⟩ := env
  cases fr with
  | none => simp [download_and_merge, cleanupScratch]
  | some content =>
    by_cases hu : (chunk_urls url content).isEmpty = true
    · simp [download_and_merge, cleanupScratch, hu]
    · cases aOk <;> cases cOk <;> cases fOk <;> cases pOk <;>
        simp [download_and_merge, cleanupScratch, hu]

/-- C6: an attempt whose fetched manifest yields zero non-comment,
non-blank lines returns failure, and neither aria2c nor ffmpeg is invoked
during it (their invocation counters are unchanged). -/
theorem C6_empty_manifest_fails_without_tools (env : NetEnv)
    (url content : List Char) (s : Scratch)
    (hf : env.fetchResult = some content)
    (hc : chunk_urls url content = []) :
    (download_and_merge env url s).1 = false
    ∧ (download_and_merge env url s).2.ariaCalls = s.ariaCalls
    ∧ (download_and_merge env url s).2.ffmpegCalls = s.ffmpegCalls := by
  unfold download_and_merge
  rw [hf]
  simp [hc, cleanupScratch]

/-- Witness for C6 at a manifest holding only a comment line and a blank
line. -/
theorem C6_empty_manifest_witness :
    chunk_urls ("http://h/a/index.m3u8".data) ("#EXTM3U\n\n".data) =
      ([] : List (List Char))
    ∧ (download_and_merge
          ⟨some ("#EXTM3U\n\n".data), true, true, true, true⟩
          ("http://h/a/index.m3u8".data)
          ⟨false, false, false, false, false, false, 0, 0⟩).1 = false
    ∧ (download_and_merge
          ⟨some ("#EXTM3U\n\n".data), true, true, true, true⟩
          ("http://h/a/index.m3u8".data)
          ⟨false, false, false, false, false, false, 0, 0⟩).2.ariaCalls = 0
    ∧ (download_and_merge
          ⟨some ("#EXTM3U\n\n".data), true, true, true, true⟩
          ("http://h/a/index.m3u8".data)
          ⟨false, false, false, false, false, false, 0, 0⟩).2.ffmpegCalls = 0 :=
  ⟨by decide,
   (C6_empty_manifest_fails_without_tools
      ⟨some ("#EXTM3U\n\n".data), true, true, true, true⟩
      ("http://h/a/index.m3u8".data) ("#EXTM3U\n\n".data)
      ⟨false, false, false, false, false, false, 0, 0⟩ rfl (by decide)).1,
   (C6_empty_manifest_fails_without_tools
      ⟨some ("#EXTM3U\n\n".data), true, true, true, true⟩
      ("http://h/a/index.m3u8".data) ("#EXTM3U\n\n".data)
      ⟨false, false, false, false, false, false, 0, 0⟩ rfl (by decide)).2.1,
   (C6_empty_manifest_fails_without_tools
      ⟨some ("#EXTM3U\n\n".data), true, true, true, true⟩
      ("http://h/a/index.m3u8".data) ("#EXTM3U\n\n".data)
      ⟨false, false, false, false, false, false, 0, 0⟩ rfl (by decide)).2.2⟩

/-- Counterexample to C7: for the input `"a |http://x.m3u8"` the label is
`"a "` (with a trailing space); `clean_filename` also strips surrounding
whitespace, so the produced name is `"a.mp4"`, not the `"a .mp4"` the claim
(removal of illegal characters and nothing else) requires. -/
theorem C7_counterexample :
    parse_message_text ("a |http://x.m3u8".data) =
      some ("http://x.m3u8".data, some ("a.mp4".data))
    ∧ sanitizeSpecC7 ("a ".data) ++ mp4Ext = "a .mp4".data
    ∧ ¬ ("a.mp4".data = "a .mp4".data) := by
  exact ⟨by decide, by decide, by decide⟩

/-- C7 as amended: for every accepted input with a separator, the output
name is the label with every character of the illegal set removed AND
surrounding whitespace stripped, followed by `.mp4`. -/
theorem C7_amended_sanitizer_strips_whitespace (text : List Char)
    (hbar : text.contains '|' = true) (link name : List Char)
    (hp : parse_message_text text = some (link, some name)) :
    name = pyStrip (sanitizeSpecC7 (splitOnceBar text).1) ++ mp4Ext := by
  unfold parse_message_text at hp
  rw [hbar] at hp
  simp only [if_true] at hp
  by_cases hc : (startsWithL httpPat (pyStrip (splitOnceBar text).2) &&
      endsWithL m3u8Pat (pyStrip (splitOnceBar text).2)) = true
  · rw [if_pos hc] at hp
    have hname : clean_filename (splitOnceBar text).1 ++ mp4Ext = name := by
      have := hp
      injection this with h1
      injection h1 with _ h2
      injection h2
    rw [← hname]
    rfl
  · rw [if_neg hc] at hp
    cases hp

/-- Witness for C7 as amended at the input `"Lec|http://a.m3u8"`. -/
theorem C7_amended_witness :
    ("Lec.mp4".data : List Char) =
      pyStrip (sanitizeSpecC7 (splitOnceBar ("Lec|http://a.m3u8".data)).1) ++
        mp4Ext :=
  C7_amended_sanitizer_strips_whitespace ("Lec|http://a.m3u8".data)
    (by decide) ("http://a.m3u8".data) ("Lec.mp4".data) (by decide)

/-- C10: an input of the form `label|link` with a valid link whose label
sanitizes to the empty string still produces a job, and its output name is
exactly `.mp4`. -/
theorem C10_empty_label_yields_dot_mp4 (text : List Char)
    (hbar : text.contains '|' = true)
    (hname : clean_filename (splitOnceBar text).1 = [])
    (hhttp : startsWithL httpPat (pyStrip (splitOnceBar text).2) = true)
    (hm3u8 : endsWithL m3u8Pat (pyStrip (splitOnceBar text).2) = true) :
    parse_message_text text =
      some (pyStrip (splitOnceBar text).2, some mp4Ext) := by
  unfold parse_message_text
  rw [hbar]
  simp [hname, hhttp, hm3u8]

/-- Witness for C10 at the input `"***|http://a.m3u8"`, whose label consists
only of illegal characters. -/
theorem C10_empty_label_witness :
    parse_message_text ("***|http://a.m3u8".data) =
      some (pyStrip (splitOnceBar ("***|http://a.m3u8".data)).2, some mp4Ext) :=
  C10_empty_label_yields_dot_mp4 ("***|http://a.m3u8".data)
    (by decide) (by decide) (by decide) (by decide)

end M3U8Bot
